import Mathlib

/-!
Shallow embedding of the native-function bridge (`src/interpreter/env_native.rs`)
and the conformance harness (`src/spec/src/run.rs`) of the parity-wasm
interpreter, with the theorems settling the specification claims about them.

Machine integers (`u32`, `u64`) are embedded as `Nat`; all index arithmetic in
the embedded code is guarded (`index < NATIVE_INDEX_FUNC_MIN` before the
subtraction, list positions below the list length before the addition), so no
wraparound can occur for any representable input and plain `Nat` arithmetic is
exact. Rust panics (`unreachable!`, `expect`, `panic!`, `assert_eq!`) are made
explicit as a third outcome / a harness-level error channel, distinct from the
`Result::Err` channel of the interpreter `Error` type.
-/

namespace ParityWasm

/-- `elements::ValueType`: the four wasm value types. -/
inductive ValueType where
  | i32
  | i64
  | f32
  | f64
deriving DecidableEq

/-- Modelled from the spec: `RuntimeValue` (interpreter/value.rs, which is not
under `src/`): a tagged union of 32/64-bit integers and 32/64-bit floats.
Integers carry the two's-complement signed value; floats are carried as their
raw IEEE-754 bit patterns, and equality used for test comparison is bitwise. -/
inductive RuntimeValue where
  | I32 (v : Int)
  | I64 (v : Int)
  | F32 (bits : Nat)
  | F64 (bits : Nat)
deriving DecidableEq

/-- Modelled from the spec: `RuntimeValue::decode_f32` (not under `src/`)
reconstructs a 32-bit float directly from its raw IEEE-754 bit pattern. -/
def RuntimeValue.decode_f32 (bits : Nat) : RuntimeValue := .F32 bits

/-- Modelled from the spec: `RuntimeValue::decode_f64` (not under `src/`)
reconstructs a 64-bit float directly from its raw IEEE-754 bit pattern. -/
def RuntimeValue.decode_f64 (bits : Nat) : RuntimeValue := .F64 bits

/-- Opaque stand-in for `interpreter::module::ExecutionParams`. -/
structure ExecutionParams where
  tag : Nat := 0
deriving DecidableEq

/-- Opaque stand-in for `interpreter::module::CallerContext`. -/
structure CallerContext where
  tag : Nat := 0
deriving DecidableEq

/-- Opaque stand-in for `interpreter::table::TableInstance` handles. -/
structure TableInstance where
  tag : Nat
deriving DecidableEq

/-- Opaque stand-in for `interpreter::memory::MemoryInstance` handles. -/
structure MemoryInstance where
  tag : Nat
deriving DecidableEq

/-- Opaque stand-in for `interpreter::variable::VariableInstance` handles. -/
structure VariableInstance where
  tag : Nat
deriving DecidableEq

/-- Opaque stand-in for `interpreter::variable::VariableType`. -/
structure VariableType where
  tag : Nat
deriving DecidableEq

/-- Opaque stand-in for `interpreter::module::InternalFunctionReference`. -/
structure InternalFunctionReference where
  tag : Nat
deriving DecidableEq

/-- Opaque stand-in for `interpreter::module::InternalFunction` (a bytecode
function body). -/
structure InternalFunction where
  tag : Nat
deriving DecidableEq

/-- Opaque stand-in for the caller-supplied externals map
(`HashMap<String, Arc<ModuleInstanceInterface>>`). -/
structure ExternalsMap where
  tag : Nat
deriving DecidableEq

/-- `interpreter::module::ItemIndex`: raw pre-resolution index, resolved
in-module index, or index into the externals map. -/
inductive ItemIndex where
  | IndexSpace (i : Nat)
  | Internal (i : Nat)
  | External (i : Nat)
deriving DecidableEq

/-- `elements::Internal`: an addressable internal handle returned by
`export_entry`. -/
inductive Internal where
  | Function (i : Nat)
  | Table (i : Nat)
  | Memory (i : Nat)
  | Global (i : Nat)
deriving DecidableEq

/-- `interpreter::Error`: the one general error channel. `Native` is the
native-kind error carrying its diagnostic message; every other interpreter
error is abstracted as `Other` with an opaque code. -/
inductive Error where
  | Native (msg : String)
  | Other (code : Nat)
deriving DecidableEq

/-- `UserFunctionDescriptor` (env_native.rs): `Static` holds a
`&'static str` name and `&'static [ValueType]` params, `Heap` an owned
`String` name and `Vec<ValueType>` params; both embed as `String`/`List`. -/
inductive UserFunctionDescriptor where
  | Static (name : String) (params : List ValueType) (result : Option ValueType)
  | Heap (name : String) (params : List ValueType) (result : Option ValueType)
deriving DecidableEq

/-- `UserFunctionDescriptor::name`. -/
def UserFunctionDescriptor.name : UserFunctionDescriptor → String
  | .Static name _ _ => name
  | .Heap name _ _ => name

/-- `UserFunctionDescriptor::params`. -/
def UserFunctionDescriptor.params : UserFunctionDescriptor → List ValueType
  | .Static _ params _ => params
  | .Heap _ params _ => params

/-- `UserFunctionDescriptor::return_type`. -/
def UserFunctionDescriptor.return_type : UserFunctionDescriptor → Option ValueType
  | .Static _ _ result => result
  | .Heap _ _ result => result

/-- `impl PartialEq for UserFunctionDescriptor` (env_native.rs, lines 184-189):
`self.params() == other.params() && self.return_type() == other.return_type()`. -/
instance : BEq UserFunctionDescriptor where
  beq d1 d2 := d1.params == d2.params && d1.return_type == d2.return_type

/-- Modelled from the spec: the params/return data of a type-section entry
(`elements::FunctionType`, not under `src/`). -/
structure FunctionType where
  params : List ValueType
  ret : Option ValueType
deriving DecidableEq

/-- `interpreter::module::FunctionSignature` (module.rs, not under `src/`):
either a bytecode-defined signature or a user (native) function descriptor. -/
inductive FunctionSignature where
  | Internal (ft : FunctionType)
  | User (d : UserFunctionDescriptor)
deriving DecidableEq

/-- `FunctionSignature` params accessor: both variants expose the same
(params, return type) query surface. -/
def FunctionSignature.params : FunctionSignature → List ValueType
  | .Internal ft => ft.params
  | .User d => d.params

/-- `FunctionSignature` return-type accessor. -/
def FunctionSignature.return_type : FunctionSignature → Option ValueType
  | .Internal ft => ft.ret
  | .User d => d.return_type

/-- Modelled from the spec: equality of `FunctionSignature` (its `PartialEq`
lives in module.rs, not under `src/`) compares the (params, return type)
query surface that both variants expose. -/
def FunctionSignature.sigEq (a b : FunctionSignature) : Bool :=
  a.params == b.params && a.return_type == b.return_type

/-- `interpreter::module::ExportEntryType` (module.rs, not under `src/`),
modelled from the spec: the required shape of an export — a function of a
given signature, a global, or any. -/
inductive ExportEntryType where
  | Any
  | Function (sig : FunctionSignature)
  | Global (vt : VariableType)
deriving DecidableEq

/-- Outcome of a bridge operation that may panic: `ok`/`err` mirror the Rust
`Result` channel, `panicked` a Rust panic (`unreachable!` or `expect`). -/
inductive Outcome (α : Type) where
  | ok (a : α)
  | err (e : Error)
  | panicked (msg : String)
deriving DecidableEq

/-- Lift a non-panicking `Result` into the panic-aware outcome. -/
def Outcome.ofExcept {α : Type} : Except Error α → Outcome α
  | .ok a => .ok a
  | .error e => .err e

/-- Whether an outcome is a panic. -/
def Outcome.isPanic {α : Type} : Outcome α → Bool
  | .panicked _ => true
  | _ => false

/-- `interpreter::module::ModuleInstanceInterface`: the uniform contract, as a
record of the base instance's operations. The base is external code, so each
operation is an abstract function on the `Result` channel. -/
structure ModuleInstanceInterface where
  execute_index : Nat → ExecutionParams → Except Error (Option RuntimeValue)
  execute_export : String → ExecutionParams → Except Error (Option RuntimeValue)
  export_entry : String → ExportEntryType → Except Error Internal
  table : ItemIndex → Except Error TableInstance
  memory : ItemIndex → Except Error MemoryInstance
  global : ItemIndex → Option VariableType → Except Error VariableInstance
  function_type : ItemIndex → Except Error FunctionSignature
  function_type_by_index : Nat → Except Error FunctionSignature
  function_reference : ItemIndex → Option ExternalsMap → Except Error InternalFunctionReference
  function_reference_indirect : Nat → Nat → Nat → Option ExternalsMap → Except Error InternalFunctionReference
  function_body : Nat → Except Error (Option InternalFunction)
  call_internal_function : CallerContext → Nat → Except Error (Option RuntimeValue)

/-- `NATIVE_INDEX_FUNC_MIN` (env_native.rs line 15): min index of a native
function. -/
def NATIVE_INDEX_FUNC_MIN : Nat := 10001

/-- `NativeModuleInstance` (env_native.rs lines 77-86): the bridge wraps one
base instance, one mutable executor, a by-name index and the descriptor list.
The executor (`UserFunctionExecutor::execute`) is an abstract function; its
`RwLock` guards exclusive access, which a sequential embedding needs no state
for. -/
structure NativeModuleInstance where
  env : ModuleInstanceInterface
  executor : String → CallerContext → Except Error (Option RuntimeValue)
  by_name : String → Option Nat
  functions : List UserFunctionDescriptor

/-- The by-name index built in `NativeModuleInstance::new` (line 94):
`functions.iter().enumerate().map(|(i, f)| (f.name().to_owned(), i as u32)).collect::<HashMap<_,_>>()`.
Collecting into a `HashMap` keeps, for each key, the value of its LAST
occurrence in the iterator; this lookup function realises exactly that map:
positions in the tail (later descriptors) take precedence. `i` is the position
of the head of the remaining list. -/
def buildByName : List UserFunctionDescriptor → Nat → String → Option Nat
  | [], _, _ => none
  | f :: rest, i, n =>
    match buildByName rest (i + 1) n with
    | some j => some j
    | none => if n = f.name then some i else none

/-- The record `NativeModuleInstance::new` builds (env_native.rs lines 91-96). -/
def mkBridge (env : ModuleInstanceInterface)
    (functions : List UserFunctionDescriptor)
    (executor : String → CallerContext → Except Error (Option RuntimeValue)) :
    NativeModuleInstance :=
  { env := env
    executor := executor
    by_name := buildByName functions 0
    functions := functions }

namespace NativeModuleInstance

/-- `NativeModuleInstance::new` (env_native.rs lines 90-97): always `Ok`. -/
def new (env : ModuleInstanceInterface)
    (functions : List UserFunctionDescriptor)
    (executor : String → CallerContext → Except Error (Option RuntimeValue)) :
    Except Error NativeModuleInstance :=
  .ok (mkBridge env functions executor)

/-- `execute_index` (line 101): pure delegation. -/
def execute_index (self : NativeModuleInstance) (index : Nat)
    (params : ExecutionParams) : Except Error (Option RuntimeValue) :=
  self.env.execute_index index params

/-- `execute_export` (line 105): pure delegation. -/
def execute_export (self : NativeModuleInstance) (name : String)
    (params : ExecutionParams) : Except Error (Option RuntimeValue) :=
  self.env.execute_export name params

/-- `table` (line 124): pure delegation. -/
def table (self : NativeModuleInstance) (index : ItemIndex) :
    Except Error TableInstance :=
  self.env.table index

/-- `memory` (line 128): pure delegation. -/
def memory (self : NativeModuleInstance) (index : ItemIndex) :
    Except Error MemoryInstance :=
  self.env.memory index

/-- `global` (line 132): pure delegation. -/
def global (self : NativeModuleInstance) (index : ItemIndex)
    (variable_type : Option VariableType) : Except Error VariableInstance :=
  self.env.global index variable_type

/-- `function_type` (env_native.rs lines 136-149): an `External` index hits
`unreachable!`; indices below the native base delegate (with the original
`ItemIndex`); a composite index looks up the descriptor at
`index - NATIVE_INDEX_FUNC_MIN`, failing with `Error::Native` naming the
index when the offset is out of range. -/
def function_type (self : NativeModuleInstance) (function_index : ItemIndex) :
    Outcome FunctionSignature :=
  match function_index with
  | .External _ =>
    .panicked ("trying to call function, exported by native env module")
  | .IndexSpace index | .Internal index =>
    if index < NATIVE_INDEX_FUNC_MIN then
      .ofExcept (self.env.function_type function_index)
    else
      match self.functions[index - NATIVE_INDEX_FUNC_MIN]? with
      | some f => .ok (.User f)
      | none =>
        .err (.Native (("missing native env function with index ") ++ toString index))

/-- `function_type_by_index` (line 151): `self.function_type(ItemIndex::Internal(type_index))`. -/
def function_type_by_index (self : NativeModuleInstance) (type_index : Nat) :
    Outcome FunctionSignature :=
  self.function_type (.Internal type_index)

/-- `export_entry` (env_native.rs lines 109-122): when `name` is in `by_name`
and the required type is a function signature equal to the signature computed
by `function_type` at the composite index, return the composite `Function`
handle; in every other case delegate to the base. The `expect` on the
`function_type` result is a panic when that lookup fails. -/
def export_entry (self : NativeModuleInstance) (name : String)
    (required_type : ExportEntryType) : Outcome Internal :=
  match self.by_name name with
  | some index =>
    let composite_index := NATIVE_INDEX_FUNC_MIN + index
    match required_type with
    | .Function required =>
      match self.function_type (.Internal composite_index) with
      | .ok computed =>
        if computed.sigEq required then
          .ok (.Function composite_index)
        else
          .ofExcept (self.env.export_entry name required_type)
      | .err _ =>
        .panicked ("by_name contains index; function_type succeeds for all functions from by_name; qed")
      | .panicked m => .panicked m
    | _ => .ofExcept (self.env.export_entry name required_type)
  | none => .ofExcept (self.env.export_entry name required_type)

/-- `function_reference` (line 155): pure delegation. -/
def function_reference (self : NativeModuleInstance) (index : ItemIndex)
    (externals : Option ExternalsMap) : Except Error InternalFunctionReference :=
  self.env.function_reference index externals

/-- `function_reference_indirect` (line 159): pure delegation. -/
def function_reference_indirect (self : NativeModuleInstance)
    (table_idx : Nat) (type_idx : Nat) (func_idx : Nat)
    (externals : Option ExternalsMap) : Except Error InternalFunctionReference :=
  self.env.function_reference_indirect table_idx type_idx func_idx externals

/-- `function_body` (lines 163-165): always `Ok(None)`. -/
def function_body (_self : NativeModuleInstance) (_internal_index : Nat) :
    Except Error (Option InternalFunction) :=
  .ok none

/-- `call_internal_function` (env_native.rs lines 167-176): indices below the
native base delegate; a composite index resolves the descriptor (failing with
`Error::Native` naming the index when out of range) and invokes the executor
on the descriptor's name. -/
def call_internal_function (self : NativeModuleInstance)
    (outer : CallerContext) (index : Nat) : Except Error (Option RuntimeValue) :=
  if index < NATIVE_INDEX_FUNC_MIN then
    self.env.call_internal_function outer index
  else
    match self.functions[index - NATIVE_INDEX_FUNC_MIN]? with
    | some f => self.executor f.name outer
    | none =>
      .error (.Native (("trying to call native function with index ") ++ toString index))

end NativeModuleInstance

/-! ## Conformance harness (src/spec/src/run.rs) -/

/-- `test::RuntimeValue`: a script literal — a type tag and a string holding a
decimal unsigned bit pattern. -/
structure TestRuntimeValue where
  value_type : String
  value : String
deriving DecidableEq

/-- A harness-level fatal failure (a Rust panic in run.rs): a literal that
does not parse (`expect("Literal parse error")`), an unrecognized type tag
(`panic!("Unknwon runtime value type")`), or a failed assertion at a script
line (`assert_eq!` mismatch, an erroring action under `AssertReturn`, or a
value-returning action under `AssertTrap`). -/
inductive HarnessError where
  | literalParse
  | unknownType
  | assertFail (line : Nat)
deriving DecidableEq

/-- Rust `str::parse::<uN>` for an unsigned integer type with exclusive bound
`bound` (`2^32` or `2^64`): an optional leading plus sign, then one or more
decimal digits, rejecting anything else and any value reaching the bound.
Written over the character list so the kernel can evaluate it on literals. -/
def parseUnsigned (s : String) (bound : Nat) : Option Nat :=
  let cs := match s.data with
    | '+' :: rest => rest
    | cs => cs
  if cs.isEmpty then none
  else if cs.all (fun c => c.isDigit) then
    let n := cs.foldl (fun a c => a * 10 + (c.toNat - 48)) 0
    if n < bound then some n else none
  else none

/-- The Rust `as` cast from an unsigned `w`-bit pattern to the signed
two's-complement integer with those bits. -/
def toSigned (w : Nat) (n : Nat) : Int :=
  if n < 2 ^ (w - 1) then (n : Int) else (n : Int) - 2 ^ w

/-- `runtime_value` (run.rs lines 27-47): decode one literal. The tag selects
the unsigned width; integers are reinterpreted as signed two's complement,
floats are rebuilt from the raw bit pattern via `decode_f32`/`decode_f64`;
parse failures and unknown tags are harness-fatal. -/
def runtime_value (test_val : TestRuntimeValue) : Except HarnessError RuntimeValue :=
  match test_val.value_type with
  | "i32" =>
    match parseUnsigned test_val.value (2 ^ 32) with
    | some unsigned => .ok (.I32 (toSigned 32 unsigned))
    | none => .error .literalParse
  | "i64" =>
    match parseUnsigned test_val.value (2 ^ 64) with
    | some unsigned => .ok (.I64 (toSigned 64 unsigned))
    | none => .error .literalParse
  | "f32" =>
    match parseUnsigned test_val.value (2 ^ 32) with
    | some unsigned => .ok (RuntimeValue.decode_f32 unsigned)
    | none => .error .literalParse
  | "f64" =>
    match parseUnsigned test_val.value (2 ^ 64) with
    | some unsigned => .ok (RuntimeValue.decode_f64 unsigned)
    | none => .error .literalParse
  | _ => .error .unknownType

/-- `runtime_values` (run.rs lines 49-51): decode a literal list in order; the
first harness-fatal literal aborts. -/
def runtime_values : List TestRuntimeValue → Except HarnessError (List RuntimeValue)
  | [] => .ok []
  | tv :: rest =>
    match runtime_value tv with
    | .error e => .error e
    | .ok v =>
      match runtime_values rest with
      | .error e => .error e
      | .ok vs => .ok (v :: vs)

/-- `test::Action`: invoke an export with literal arguments. -/
inductive Action where
  | Invoke (field : String) (args : List TestRuntimeValue)

/-- The current module under test, abstracted to the one operation the harness
uses on it: `ModuleInstance::execute_export` (external interpreter code). -/
def ModuleExec : Type :=
  String → List RuntimeValue → Except Error (Option RuntimeValue)

/-- `run_action` (run.rs lines 53-61): decode the arguments (harness-fatal on
a bad literal) and call `execute_export`; the inner `Except` is the
interpreter's own error channel. -/
def run_action (module : ModuleExec) :
    Action → Except HarnessError (Except Error (Option RuntimeValue))
  | .Invoke field args =>
    match runtime_values args with
    | .error e => .error e
    | .ok vs => .ok (module field vs)

/-- The `AssertReturn` arm of `spec` (run.rs lines 104-117): run the action;
an interpreter error is a failed assertion; otherwise decode the expected
literals and require `result.into_iter().collect::<Vec<_>>()` to equal them
(`assert_eq!`); a mismatch fails at the command's line. -/
def runAssertReturn (module : ModuleExec) (line : Nat) (action : Action)
    (expected : List TestRuntimeValue) : Except HarnessError Unit :=
  match run_action module action with
  | .error e => .error e
  | .ok (.ok result) =>
    match runtime_values expected with
    | .error e => .error e
    | .ok spec_expected =>
      if result.toList = spec_expected then .ok () else .error (.assertFail line)
  | .ok (.error _) => .error (.assertFail line)

/-- The `AssertTrap` arm of `spec` (run.rs lines 118-128): run the action; any
interpreter error passes, a successful result fails at the command's line. -/
def runAssertTrap (module : ModuleExec) (line : Nat) (action : Action) :
    Except HarnessError Unit :=
  match run_action module action with
  | .error e => .error e
  | .ok (.ok _) => .error (.assertFail line)
  | .ok (.error _) => .ok ()

/-! ## Helper lemmas about the by-name index -/

/-- Any position stored by the by-name build lies in `[i, i + length)`. -/
theorem buildByName_bounds (fs : List UserFunctionDescriptor) (n : String) :
    ∀ (i j : Nat), buildByName fs i n = some j → i ≤ j ∧ j < i + fs.length := by
  induction fs with
  | nil =>
    intro i j h
    simp [buildByName] at h
  | cons f rest ih =>
    intro i j h
    simp only [buildByName] at h
    cases hr : buildByName rest (i + 1) n with
    | some j' =>
      rw [hr] at h
      cases h
      have hb := ih (i + 1) j hr
      constructor
      · omega
      · simp only [List.length_cons]
        omega
    | none =>
      rw [hr] at h
      by_cases hn : n = f.name
      · simp only [hn, if_pos rfl] at h
        cases h
        simp only [List.length_cons]
        omega
      · simp [hn] at h

/-- A name held by no descriptor is absent from the by-name build. -/
theorem buildByName_not_mem (fs : List UserFunctionDescriptor) (n : String)
    (h : ∀ d ∈ fs, d.name ≠ n) : ∀ i, buildByName fs i n = none := by
  induction fs with
  | nil => intro i; rfl
  | cons f rest ih =>
    intro i
    have hr := ih (fun d hd => h d (List.mem_cons_of_mem _ hd)) (i + 1)
    have hf : ¬ (n = f.name) := fun e => h f (List.mem_cons_self _ _) e.symm
    simp [buildByName, hr, hf]

/-- The by-name build maps a name to the position of its LAST occurrence:
if position `j` holds the name and no later position does, the build (started
at offset `i`) yields `i + j`. -/
theorem buildByName_last (fs : List UserFunctionDescriptor) (n : String) :
    ∀ (j : Nat) (hj : j < fs.length), (fs[j]).name = n →
      (∀ (k : Nat) (hk : k < fs.length), j < k → (fs[k]).name ≠ n) →
      ∀ i, buildByName fs i n = some (i + j) := by
  induction fs with
  | nil =>
    intro j hj
    simp at hj
  | cons f rest ih =>
    intro j hj hname hlast i
    cases j with
    | zero =>
      have hf : n = f.name := by simpa using hname.symm
      subst hf
      have hrest : ∀ d ∈ rest, d.name ≠ f.name := by
        intro d hd
        obtain ⟨⟨k, hk⟩, hdk⟩ := List.mem_iff_get.mp hd
        have hdk' : rest[k] = d := by simpa using hdk
        have h2 := hlast (k + 1) (by simpa using Nat.succ_lt_succ hk) (Nat.succ_pos k)
        rw [← hdk']
        simpa using h2
      have hnone := buildByName_not_mem rest f.name hrest (i + 1)
      simp [buildByName, hnone]
    | succ j' =>
      have hj' : j' < rest.length := by simpa using hj
      have hname' : (rest[j']).name = n := by simpa using hname
      have hlast' : ∀ (k : Nat) (hk : k < rest.length), j' < k → (rest[k]).name ≠ n := by
        intro k hk hjk
        have := hlast (k + 1) (by simpa using Nat.succ_lt_succ hk) (Nat.succ_lt_succ hjk)
        simpa using this
      have := ih j' hj' hname' hlast' (i + 1)
      simp only [buildByName, this]
      congr 1
      omega

/-- Lifting the base's `Result` never yields a panic. -/
theorem ofExcept_not_panic {α : Type} (e : Except Error α) :
    (Outcome.ofExcept e).isPanic = false := by
  cases e <;> rfl

/-- A composite lookup at a valid descriptor position succeeds with the
descriptor's `User` signature. -/
theorem function_type_composite_get (env : ModuleInstanceInterface)
    (exec : String → CallerContext → Except Error (Option RuntimeValue))
    (fs : List UserFunctionDescriptor) (j : Nat) (hj : j < fs.length) :
    (mkBridge env fs exec).function_type (.Internal (NATIVE_INDEX_FUNC_MIN + j))
      = .ok (.User (fs[j])) := by
  have hnot : ¬ (NATIVE_INDEX_FUNC_MIN + j < NATIVE_INDEX_FUNC_MIN) := by omega
  have hsub : NATIVE_INDEX_FUNC_MIN + j - NATIVE_INDEX_FUNC_MIN = j := by omega
  have hget : fs[j]? = some (fs[j]) := List.getElem?_eq_getElem hj
  simp only [NativeModuleInstance.function_type, mkBridge, if_neg hnot, hsub, hget]

/-! ## Concrete fixtures for counterexamples and witnesses -/

/-- An executor that fails on every call. -/
def exExecFail : String → CallerContext → Except Error (Option RuntimeValue) :=
  fun _ _ => .error (.Other 7)

/-- One registered native function named f with no params and no result. -/
def exFns : List UserFunctionDescriptor :=
  [.Static ("f") [] none]

/-- Two descriptors sharing the name f at positions 0 and 1. -/
def exDupFns : List UserFunctionDescriptor :=
  [.Static ("f") [] none, .Static ("f") [.i32] none]

/-- A concrete base instance; its `function_body` returns a body, so the
bridge's constant `Ok(None)` is observably different from it. -/
def exEnv : ModuleInstanceInterface where
  execute_index := fun _ _ => .ok none
  execute_export := fun _ _ => .ok (some (.I32 5))
  export_entry := fun _ _ => .error (.Other 1)
  table := fun _ => .error (.Other 2)
  memory := fun _ => .error (.Other 3)
  global := fun _ _ => .error (.Other 4)
  function_type := fun _ => .error (.Other 5)
  function_type_by_index := fun _ => .error (.Other 6)
  function_reference := fun _ _ => .error (.Other 8)
  function_reference_indirect := fun _ _ _ _ => .error (.Other 9)
  function_body := fun _ => .ok (some ⟨1⟩)
  call_internal_function := fun _ _ => .ok none

/-- The bridge over `exEnv` with the single descriptor and failing executor. -/
def exBridge : NativeModuleInstance := mkBridge exEnv exFns exExecFail

/-! ## Claim theorems -/

/-- C1 (corrected): for `i ≥ NATIVE_INDEX_FUNC_MIN`, `function_type` (on
`Internal`, and identically on `IndexSpace`) succeeds iff `i − base` is a
valid descriptor position; at a valid position `call_internal_function`
returns exactly the executor's result on the descriptor's name (so it can
still fail even at a valid position); at an invalid position both return
`Error::Native` naming the missing index. -/
theorem C1_theorem (self : NativeModuleInstance) (outer : CallerContext)
    (i : Nat) (h : NATIVE_INDEX_FUNC_MIN ≤ i) :
    ((∃ sig, self.function_type (.Internal i) = .ok sig)
        ↔ i - NATIVE_INDEX_FUNC_MIN < self.functions.length)
    ∧ self.function_type (.IndexSpace i) = self.function_type (.Internal i)
    ∧ (∀ d, self.functions[i - NATIVE_INDEX_FUNC_MIN]? = some d →
        self.function_type (.Internal i) = .ok (.User d)
        ∧ self.call_internal_function outer i = self.executor d.name outer)
    ∧ (self.functions[i - NATIVE_INDEX_FUNC_MIN]? = none →
        self.function_type (.Internal i)
          = .err (.Native (("missing native env function with index ") ++ toString i))
        ∧ self.call_internal_function outer i
          = .error (.Native (("trying to call native function with index ") ++ toString i))) := by
  have hnot : ¬ i < NATIVE_INDEX_FUNC_MIN := not_lt.mpr h
  refine ⟨?_, ?_, ?_, ?_⟩
  · constructor
    · rintro ⟨sig, hsig⟩
      by_contra hge
      have hnone : self.functions[i - NATIVE_INDEX_FUNC_MIN]? = none := by
        rw [List.getElem?_eq_none]
        omega
      simp [NativeModuleInstance.function_type, if_neg hnot, hnone] at hsig
    · intro hlt
      refine ⟨.User (self.functions[i - NATIVE_INDEX_FUNC_MIN]), ?_⟩
      have hget := List.getElem?_eq_getElem hlt
      simp [NativeModuleInstance.function_type, if_neg hnot, hget]
  · simp only [NativeModuleInstance.function_type, if_neg hnot]
  · intro d hd
    constructor
    · simp [NativeModuleInstance.function_type, if_neg hnot, hd]
    · simp [NativeModuleInstance.call_internal_function, if_neg hnot, hd]
  · intro hnone
    constructor
    · simp [NativeModuleInstance.function_type, if_neg hnot, hnone]
    · simp [NativeModuleInstance.call_internal_function, if_neg hnot, hnone]

/-- C1 counterexample: on `exBridge`, index 10001 is composite and
`10001 − base = 0` IS a valid position in the one-element descriptor list,
yet `call_internal_function` does not succeed — it returns the failing
executor's error — so the claimed equivalence "both succeed iff the position
is valid" is false at this input. -/
theorem C1_counterexample :
    NATIVE_INDEX_FUNC_MIN ≤ 10001
    ∧ 10001 - NATIVE_INDEX_FUNC_MIN < exBridge.functions.length
    ∧ exBridge.call_internal_function {} 10001 = .error (.Other 7) := by
  exact ⟨by decide, by decide, rfl⟩

/-- C1 witness: the amended statement evaluated on `exBridge` at the valid
composite index 10001 and the invalid composite index 10002. -/
theorem C1_witness :
    exBridge.function_type (.Internal 10001)
        = .ok (.User (.Static ("f") [] none))
    ∧ exBridge.function_type (.Internal 10002)
        = .err (.Native (("missing native env function with index ") ++ toString 10002))
    ∧ exBridge.call_internal_function {} 10002
        = .error (.Native (("trying to call native function with index ") ++ toString 10002)) := by
  refine ⟨?_, ?_, ?_⟩
  · exact ((C1_theorem exBridge {} 10001 (by decide)).2.2.1 (.Static ("f") [] none) rfl).1
  · exact ((C1_theorem exBridge {} 10002 (by decide)).2.2.2 rfl).1
  · exact ((C1_theorem exBridge {} 10002 (by decide)).2.2.2 rfl).2

/-- C3 (corrected): for every index below the native base the bridge
delegates `execute_index`, `execute_export`, `table`, `memory`, `global`,
`function_type` (on `Internal`/`IndexSpace`), `function_reference`,
`function_reference_indirect` and `call_internal_function` to the base
unchanged, and an empty-descriptor bridge also delegates `export_entry` for
every name; but `function_body` always returns `Ok(None)` regardless of the
base, so even an empty-descriptor bridge is not observationally equivalent to
its base on `function_body`. -/
theorem C3_theorem (env : ModuleInstanceInterface)
    (exec : String → CallerContext → Except Error (Option RuntimeValue))
    (self : NativeModuleInstance) (i : Nat) (hi : i < NATIVE_INDEX_FUNC_MIN)
    (p : ExecutionParams) (ctx : CallerContext) (name : String)
    (rt : ExportEntryType) (idx : ItemIndex) (vt : Option VariableType)
    (ext : Option ExternalsMap) (t ty fi : Nat) :
    self.execute_index i p = self.env.execute_index i p
    ∧ self.execute_export name p = self.env.execute_export name p
    ∧ self.table idx = self.env.table idx
    ∧ self.memory idx = self.env.memory idx
    ∧ self.global idx vt = self.env.global idx vt
    ∧ self.function_type (.Internal i) = .ofExcept (self.env.function_type (.Internal i))
    ∧ self.function_type (.IndexSpace i) = .ofExcept (self.env.function_type (.IndexSpace i))
    ∧ self.function_reference idx ext = self.env.function_reference idx ext
    ∧ self.function_reference_indirect t ty fi ext
        = self.env.function_reference_indirect t ty fi ext
    ∧ self.call_internal_function ctx i = self.env.call_internal_function ctx i
    ∧ self.function_body i = .ok none
    ∧ (mkBridge env [] exec).export_entry name rt = .ofExcept (env.export_entry name rt) := by
  refine ⟨rfl, rfl, rfl, rfl, rfl, ?_, ?_, rfl, rfl, ?_, rfl, ?_⟩
  · simp only [NativeModuleInstance.function_type, if_pos hi]
  · simp only [NativeModuleInstance.function_type, if_pos hi]
  · simp only [NativeModuleInstance.call_internal_function, if_pos hi]
  · simp only [NativeModuleInstance.export_entry, mkBridge, buildByName]

/-- C3 counterexample: index 0 is below the native base, the bridge over
`exEnv` with an empty descriptor list returns `Ok(None)` from
`function_body`, but the base returns a body — the empty bridge is NOT
observationally equivalent to its base on `function_body`. -/
theorem C3_counterexample :
    (mkBridge exEnv [] exExecFail).functions = []
    ∧ (mkBridge exEnv [] exExecFail).function_body 0 = .ok none
    ∧ exEnv.function_body 0 = .ok (some ⟨1⟩)
    ∧ (mkBridge exEnv [] exExecFail).function_body 0 ≠ exEnv.function_body 0 := by
  refine ⟨rfl, rfl, rfl, ?_⟩
  intro hcontra
  have h1 : (Except.ok (ε := Error) (none : Option InternalFunction))
      = .ok (some ⟨1⟩) := hcontra
  simp at h1

/-- C3 witness: the amended delegation statement evaluated on `exBridge` at
index 5 and on the empty-descriptor bridge for an unregistered export name. -/
theorem C3_witness :
    exBridge.call_internal_function {} 5 = exEnv.call_internal_function {} 5
    ∧ (mkBridge exEnv [] exExecFail).export_entry ("g") .Any
        = .ofExcept (exEnv.export_entry ("g") .Any) := by
  have h := C3_theorem exEnv exExecFail exBridge 5 (by decide) {} {} ("g") .Any
    (.Internal 0) none none 0 0 0
  exact ⟨h.2.2.2.2.2.2.2.2.2.1, h.2.2.2.2.2.2.2.2.2.2.2⟩

/-- C4: for all user function descriptors `d1`, `d2`, `d1 == d2` holds iff
their parameter lists and return types agree; names play no role — in
particular a `Static` and a `Heap` descriptor with different names but the
same types compare equal. -/
theorem C4_theorem (d1 d2 : UserFunctionDescriptor) :
    ((d1 == d2) = true ↔ d1.params = d2.params ∧ d1.return_type = d2.return_type)
    ∧ ∀ (n1 n2 : String) (p : List ValueType) (r : Option ValueType),
        ((UserFunctionDescriptor.Static n1 p r == UserFunctionDescriptor.Heap n2 p r) = true) := by
  constructor
  · have h : (d1 == d2) = (d1.params == d2.params && d1.return_type == d2.return_type) := rfl
    rw [h]
    simp [Bool.and_eq_true]
  · intro n1 n2 p r
    have h : ((UserFunctionDescriptor.Static n1 p r == UserFunctionDescriptor.Heap n2 p r))
        = (p == p && r == r) := rfl
    rw [h]
    simp

/-- C9: `function_type` on an `External` item index panics (the embedded
`unreachable!`) for every index, including those below
`NATIVE_INDEX_FUNC_MIN`; it neither delegates nor uses the error channel. -/
theorem C9_theorem (self : NativeModuleInstance) (i : Nat) :
    self.function_type (.External i)
      = .panicked ("trying to call function, exported by native env module")
    ∧ (self.function_type (.External i)).isPanic = true := by
  exact ⟨rfl, rfl⟩

/-- C2: `export_entry(name, required_type)` returns the composite
`Internal::Function(NATIVE_INDEX_FUNC_MIN + position)` exactly when `name` is
in the by-name index at `position` AND the required type is `Function sig`
AND the registered descriptor's computed signature equals `sig`; in every
other case — unregistered name, signature mismatch, or non-function required
type — it returns exactly the base instance's `export_entry` result. -/
theorem C2_theorem (env : ModuleInstanceInterface)
    (exec : String → CallerContext → Except Error (Option RuntimeValue))
    (fs : List UserFunctionDescriptor) (name : String) (rt : ExportEntryType) :
    (∀ pos d sig, buildByName fs 0 name = some pos → fs[pos]? = some d →
        rt = .Function sig → FunctionSignature.sigEq (.User d) sig = true →
        (mkBridge env fs exec).export_entry name rt
          = .ok (.Function (NATIVE_INDEX_FUNC_MIN + pos)))
    ∧ (∀ pos d sig, buildByName fs 0 name = some pos → fs[pos]? = some d →
        rt = .Function sig → FunctionSignature.sigEq (.User d) sig = false →
        (mkBridge env fs exec).export_entry name rt
          = .ofExcept (env.export_entry name rt))
    ∧ (buildByName fs 0 name = none →
        (mkBridge env fs exec).export_entry name rt
          = .ofExcept (env.export_entry name rt))
    ∧ (∀ pos, buildByName fs 0 name = some pos → (∀ sig, rt ≠ .Function sig) →
        (mkBridge env fs exec).export_entry name rt
          = .ofExcept (env.export_entry name rt)) := by
  refine ⟨?_, ?_, ?_, ?_⟩
  · intro pos d sig hpos hget hrt hsig
    subst hrt
    have hlen : pos < fs.length := (List.getElem?_eq_some.mp hget).1
    have hft := function_type_composite_get env exec fs pos hlen
    have hd : fs[pos] = d := by
      have := List.getElem?_eq_getElem hlen
      rw [this] at hget
      exact Option.some.inj hget
    rw [hd] at hft
    simp only [NativeModuleInstance.export_entry, mkBridge] at hft ⊢
    simp only [hpos, hft, hsig, if_true]
  · intro pos d sig hpos hget hrt hsig
    subst hrt
    have hlen : pos < fs.length := (List.getElem?_eq_some.mp hget).1
    have hft := function_type_composite_get env exec fs pos hlen
    have hd : fs[pos] = d := by
      have := List.getElem?_eq_getElem hlen
      rw [this] at hget
      exact Option.some.inj hget
    rw [hd] at hft
    simp only [NativeModuleInstance.export_entry, mkBridge] at hft ⊢
    simp [hpos, hft, hsig]
  · intro hpos
    simp only [NativeModuleInstance.export_entry, mkBridge, hpos]
  · intro pos hpos hnf
    simp only [NativeModuleInstance.export_entry, mkBridge, hpos]

/-- C2 witness: on `exBridge` the registered name f with the exactly matching
required signature resolves to the composite index `10001`; with a
mismatching signature, and for an unregistered name, the base's (failing)
result comes back unchanged. -/
theorem C2_witness :
    exBridge.export_entry ("f")
        (.Function (.User (.Static ("f") [] none))) = .ok (.Function 10001)
    ∧ exBridge.export_entry ("f")
        (.Function (.User (.Static ("f") [.i32] none))) = .err (.Other 1)
    ∧ exBridge.export_entry ("g")
        (.Function (.User (.Static ("g") [] none))) = .err (.Other 1) := by
  refine ⟨?_, ?_, ?_⟩
  · exact (C2_theorem exEnv exExecFail exFns ("f")
      (.Function (.User (.Static ("f") [] none)))).1 0
      (.Static ("f") [] none) (.User (.Static ("f") [] none)) rfl rfl rfl rfl
  · exact (C2_theorem exEnv exExecFail exFns ("f")
      (.Function (.User (.Static ("f") [.i32] none)))).2.1 0
      (.Static ("f") [] none) (.User (.Static ("f") [.i32] none)) rfl rfl rfl rfl
  · exact (C2_theorem exEnv exExecFail exFns ("g")
      (.Function (.User (.Static ("g") [] none)))).2.2.1 rfl

/-- C8: construction from a descriptor list in which two or more descriptors
share a name succeeds without error, and the by-name index maps that name to
the position of the LAST such descriptor in the list. -/
theorem C8_theorem (env : ModuleInstanceInterface)
    (exec : String → CallerContext → Except Error (Option RuntimeValue))
    (fs : List UserFunctionDescriptor) (name : String) (j : Nat)
    (hj : j < fs.length) (hname : (fs[j]).name = name)
    (_hdup : ∃ (k : Nat) (hk : k < fs.length), k ≠ j ∧ (fs[k]).name = name)
    (hlast : ∀ (k : Nat) (hk : k < fs.length), j < k → (fs[k]).name ≠ name) :
    NativeModuleInstance.new env fs exec = .ok (mkBridge env fs exec)
    ∧ (mkBridge env fs exec).by_name name = some j := by
  refine ⟨rfl, ?_⟩
  have h := buildByName_last fs name j hj hname hlast 0
  simpa [mkBridge] using h

/-- C8 witness: with descriptors named f at positions 0 and 1, construction
succeeds and the by-name index maps f to the last position, 1. -/
theorem C8_witness :
    NativeModuleInstance.new exEnv exDupFns exExecFail
        = .ok (mkBridge exEnv exDupFns exExecFail)
    ∧ (mkBridge exEnv exDupFns exExecFail).by_name ("f") = some 1 := by
  refine C8_theorem exEnv exExecFail exDupFns ("f") 1 (by decide) rfl
    ⟨0, by decide, by decide, rfl⟩ ?_
  intro k hk hlt
  have hk2 : k < 2 := by simpa [exDupFns] using hk
  exact absurd hk2 (by omega)

/-- C10: for a bridge built by `new`, every position stored in the by-name
index is a valid position in the descriptor list, the signature lookup inside
`export_entry` (`function_type` at `NATIVE_INDEX_FUNC_MIN + position`) always
succeeds, and therefore `export_entry`'s `expect` can never panic. -/
theorem C10_theorem (env : ModuleInstanceInterface)
    (exec : String → CallerContext → Except Error (Option RuntimeValue))
    (fs : List UserFunctionDescriptor) (name : String) (rt : ExportEntryType) :
    (∀ j, (mkBridge env fs exec).by_name name = some j →
        j < fs.length
        ∧ ∃ d, fs[j]? = some d
          ∧ (mkBridge env fs exec).function_type
              (.Internal (NATIVE_INDEX_FUNC_MIN + j)) = .ok (.User d))
    ∧ ((mkBridge env fs exec).export_entry name rt).isPanic = false := by
  have hval : ∀ j, (mkBridge env fs exec).by_name name = some j → j < fs.length := by
    intro j hjn
    have hb := buildByName_bounds fs name 0 j (by simpa [mkBridge] using hjn)
    omega
  constructor
  · intro j hjn
    have hjlen := hval j hjn
    exact ⟨hjlen, fs[j], List.getElem?_eq_getElem hjlen,
      function_type_composite_get env exec fs j hjlen⟩
  · simp only [NativeModuleInstance.export_entry]
    cases hbn : (mkBridge env fs exec).by_name name with
    | none => exact ofExcept_not_panic _
    | some j =>
      have hjlen := hval j hbn
      have hft := function_type_composite_get env exec fs j hjlen
      cases rt with
      | Any => exact ofExcept_not_panic _
      | Global vt => exact ofExcept_not_panic _
      | Function required =>
        simp only [hft]
        by_cases hs : FunctionSignature.sigEq (.User (fs[j])) required = true
        · simp [hs, Outcome.isPanic]
        · simp only [hs, if_false]
          exact ofExcept_not_panic _

/-- C10 witness: on the duplicate-name bridge the by-name position 1 is a
valid descriptor position and `export_entry` does not panic, whatever the
required signature. -/
theorem C10_witness :
    ((mkBridge exEnv exDupFns exExecFail).export_entry ("f")
        (.Function (.User (.Static ("f") [] none)))).isPanic = false
    ∧ 1 < exDupFns.length := by
  refine ⟨?_, ?_⟩
  · exact (C10_theorem exEnv exExecFail exDupFns ("f")
      (.Function (.User (.Static ("f") [] none)))).2
  · exact ((C10_theorem exEnv exExecFail exDupFns ("f")
      (.Function (.User (.Static ("f") [] none)))).1 1 rfl).1

/-- C5: a literal is decoded by parsing the string as an unsigned integer of
the tagged width and reinterpreting the bit pattern: i32/i64 become the
two's-complement signed integer with those bits, f32/f64 become the value
whose raw IEEE-754 bits are exactly the parsed unsigned value (via
`decode_f32`/`decode_f64`, never a decimal-to-float conversion); a parse
failure and an unrecognized type tag are fatal harness errors. -/
theorem C5_theorem (s : String) (n : Nat) (tag : String) :
    (parseUnsigned s (2 ^ 32) = some n →
        runtime_value ⟨"i32", s⟩ = .ok (.I32 (toSigned 32 n)))
    ∧ (parseUnsigned s (2 ^ 64) = some n →
        runtime_value ⟨"i64", s⟩ = .ok (.I64 (toSigned 64 n)))
    ∧ (parseUnsigned s (2 ^ 32) = some n →
        runtime_value ⟨"f32", s⟩ = .ok (RuntimeValue.decode_f32 n))
    ∧ (parseUnsigned s (2 ^ 64) = some n →
        runtime_value ⟨"f64", s⟩ = .ok (RuntimeValue.decode_f64 n))
    ∧ (parseUnsigned s (2 ^ 32) = none →
        runtime_value ⟨"i32", s⟩ = .error .literalParse)
    ∧ (tag ≠ "i32" → tag ≠ "i64" → tag ≠ "f32" → tag ≠ "f64" →
        runtime_value ⟨tag, s⟩ = .error .unknownType) := by
  refine ⟨?_, ?_, ?_, ?_, ?_, ?_⟩
  · intro h
    simp only [runtime_value, h]
  · intro h
    simp only [runtime_value, h]
  · intro h
    simp only [runtime_value, h]
  · intro h
    simp only [runtime_value, h]
  · intro h
    simp only [runtime_value, h]
  · intro h1 h2 h3 h4
    simp [runtime_value, h1, h2, h3, h4]

/-- C5 witness: concrete decodings — the all-ones 32-bit pattern becomes
`-1 : i32`, the canonical-NaN bit pattern is kept verbatim as f32 bits, and
an unknown tag is fatal. -/
theorem C5_witness :
    runtime_value ⟨"i32", "4294967295"⟩ = .ok (.I32 (-1))
    ∧ runtime_value ⟨"f32", "2143289344"⟩ = .ok (.F32 2143289344)
    ∧ runtime_value ⟨"i16", "0"⟩ = .error .unknownType := by
  refine ⟨?_, ?_, ?_⟩
  · have h := (C5_theorem ("4294967295") 4294967295 ("i16")).1 (by decide)
    rw [h]
    norm_num [toSigned]
  · exact (C5_theorem ("2143289344") 2143289344 ("i16")).2.2.1 (by decide)
  · exact (C5_theorem ("0") 0 ("i16")).2.2.2.2.2 (by decide) (by decide)
      (by decide) (by decide)

/-- A module whose exports always return the i32 value 3. -/
def exModule : ModuleExec := fun _ _ => .ok (some (.I32 3))

/-- A module whose exports always trap. -/
def exModuleTrap : ModuleExec := fun _ _ => .error (.Other 3)

/-- C6: `AssertReturn` passes iff the action succeeds and the result sequence
(`Option::into_iter`'s zero-or-one values) equals the decoded expected list
exactly; in particular an empty expected list matches only an action
producing no value; any action error or mismatch fails the run at the
command's line. -/
theorem C6_theorem (module : ModuleExec) (line : Nat) (action : Action)
    (expected : List TestRuntimeValue) (vs : List RuntimeValue)
    (hdec : runtime_values expected = .ok vs) :
    (runAssertReturn module line action expected = .ok ()
        ↔ ∃ r, run_action module action = .ok (.ok r) ∧ r.toList = vs)
    ∧ (vs = [] →
        (runAssertReturn module line action expected = .ok ()
          ↔ run_action module action = .ok (.ok none))) := by
  have main : runAssertReturn module line action expected = .ok ()
      ↔ ∃ r, run_action module action = .ok (.ok r) ∧ r.toList = vs := by
    unfold runAssertReturn
    cases hra : run_action module action with
    | error e => simp
    | ok res =>
      cases res with
      | error e => simp
      | ok result =>
        simp only [hdec]
        by_cases ht : result.toList = vs
        · simp [ht]
        · simp [ht]
  refine ⟨main, ?_⟩
  intro hnil
  rw [main, hnil]
  constructor
  · rintro ⟨r, hr, hrl⟩
    cases r with
    | none => exact hr
    | some v => simp at hrl
  · intro hq
    exact ⟨none, hq, rfl⟩

/-- C6 witness: the spec's Scenario A shape — invoking add with i32 literals
1 and 2 against a module returning i32 3 passes against expected [3]; and
against expected [] with a value-producing action it fails. -/
theorem C6_witness :
    runAssertReturn exModule 3 (.Invoke ("add") [⟨"i32", "1"⟩, ⟨"i32", "2"⟩])
        [⟨"i32", "3"⟩] = .ok ()
    ∧ runAssertReturn exModule 4 (.Invoke ("add") []) [] ≠ .ok () := by
  constructor
  · have h := (C6_theorem exModule 3 (.Invoke ("add") [⟨"i32", "1"⟩, ⟨"i32", "2"⟩])
      [⟨"i32", "3"⟩] [.I32 3] (by rfl)).1
    exact h.mpr ⟨some (.I32 3), by rfl, rfl⟩
  · have h := (C6_theorem exModule 4 (.Invoke ("add") []) []
      [] (by rfl)).2 rfl
    intro hcontra
    have h2 := h.mp hcontra
    have h3 : (Except.ok (Except.ok (some (RuntimeValue.I32 3)))
        : Except HarnessError (Except Error (Option RuntimeValue))) = .ok (.ok none) := h2
    simp at h3

/-- C7: `AssertTrap` passes iff running the action returns an interpreter
error — any error counts, no trap subkind is distinguished — and an action
returning a successful result makes the harness fail at the command's line. -/
theorem C7_theorem (module : ModuleExec) (line : Nat) (action : Action) :
    (runAssertTrap module line action = .ok ()
        ↔ ∃ e, run_action module action = .ok (.error e))
    ∧ (∀ r, run_action module action = .ok (.ok r) →
        runAssertTrap module line action = .error (.assertFail line)) := by
  constructor
  · unfold runAssertTrap
    cases hra : run_action module action with
    | error e => simp
    | ok res =>
      cases res with
      | error e => simp
      | ok result => simp
  · intro r hr
    unfold runAssertTrap
    rw [hr]

/-- C7 witness: the spec's Scenario B shape — a trapping div invocation
passes `AssertTrap`, while the value-returning module fails it. -/
theorem C7_witness :
    runAssertTrap exModuleTrap 9 (.Invoke ("div") [⟨"i32", "10"⟩, ⟨"i32", "0"⟩])
        = .ok ()
    ∧ runAssertTrap exModule 9 (.Invoke ("div") []) = .error (.assertFail 9) := by
  constructor
  · exact (C7_theorem exModuleTrap 9
      (.Invoke ("div") [⟨"i32", "10"⟩, ⟨"i32", "0"⟩])).1.mpr ⟨.Other 3, by rfl⟩
  · exact (C7_theorem exModule 9 (.Invoke ("div") [])).2 (some (.I32 3)) (by rfl)

end ParityWasm
